import Mathlib

/-!
Verification development for the AdLimen code-quality suite.

Two components are embedded shallowly:

* the maintainability scorer (`scripts/maintainability-check.js`): per-file
  metrics, penalty application, line-count-weighted aggregation, grading and
  recommendation generation;
* the quality orchestration engine (`scripts/quality-check.js`): the tool
  descriptor registry, the suite table, identifier resolution, the sequential /
  parallel batching of tool invocations, and the fix-mode phase ordering.

JavaScript numbers are modelled as exact rationals (`ℚ`); subprocess exit
codes and environment facts (tool availability) are passed in as parameters.
-/

namespace QualitySuite

/-! ## Maintainability scorer: configuration (`config` in maintainability-check.js) -/

/-- The `config.complexity` thresholds of the scorer. -/
structure ComplexityThresholds where
  maxCyclomatic : ℚ
  maxDepth : ℕ
  maxParams : ℕ
  maxStatements : ℕ
  maxLines : ℚ
  maxLineLength : ℕ
deriving DecidableEq

/-- The `config.thresholds` grade cut points of the scorer. -/
structure GradeThresholds where
  excellent : ℚ
  good : ℚ
  acceptable : ℚ
  needsImprovement : ℚ
deriving DecidableEq

/-- The scorer configuration object (`config`), built-in defaults. -/
structure ScorerConfig where
  thresholds : GradeThresholds
  complexity : ComplexityThresholds
deriving DecidableEq

/-- The default configuration literal from maintainability-check.js. -/
def config : ScorerConfig :=
  { thresholds :=
      { excellent := 90, good := 80, acceptable := 70, needsImprovement := 60 }
    complexity :=
      { maxCyclomatic := 10, maxDepth := 4, maxParams := 4, maxStatements := 20,
        maxLines := 300, maxLineLength := 100 } }

/-! ## Maintainability scorer: per-file metrics -/

/-- One entry of the `functions` array produced by `analyzeFileComplexity`
(name, per-function cyclomatic complexity, parameter count, line span,
per-function maintainability). -/
structure FunctionMetric where
  name : String
  complexity : ℚ
  params : ℕ
  lines : ℚ
  maintainability : ℚ
deriving DecidableEq

/-- The result record of `analyzeFileComplexity` for one file.  `error` is true
when the embedded analyzer threw while parsing the file (the JS record then
carries an `error` message and zeroed metrics; the message text is not needed
for the properties below).  `maintainability` is the raw sub-score reported by
the external `typhonjs-escomplex-module` analyzer and is therefore not
constrained by this repository's code. -/
structure FileMetric where
  file : String
  error : Bool
  complexity : ℚ
  maintainability : ℚ
  functions : List FunctionMetric
  lines : ℚ
deriving DecidableEq

/-! ## `calculateMaintainabilityScore` -/

/-- The weight of one file in the aggregate: `Math.max(1, result.lines)`. -/
def fileWeight (r : FileMetric) : ℚ := max 1 r.lines

/-- `complexFunctions.length` for one file: the number of functions whose
cyclomatic complexity exceeds `config.complexity.maxCyclomatic`. -/
def overComplexFunctionCount (r : FileMetric) : ℕ :=
  (r.functions.filter fun f => config.complexity.maxCyclomatic < f.complexity).length

/-- First penalty step of `calculateMaintainabilityScore`:
`if (result.complexity > maxCyclomatic) fileScore = max(0, fileScore - (result.complexity - maxCyclomatic) * 2)`. -/
def applyComplexityPenalty (r : FileMetric) (s : ℚ) : ℚ :=
  if config.complexity.maxCyclomatic < r.complexity then
    max 0 (s - (r.complexity - config.complexity.maxCyclomatic) * 2)
  else s

/-- Second penalty step:
`if (result.lines > maxLines) fileScore = max(0, fileScore - (result.lines - maxLines) / 50)`. -/
def applyLinesPenalty (r : FileMetric) (s : ℚ) : ℚ :=
  if config.complexity.maxLines < r.lines then
    max 0 (s - (r.lines - config.complexity.maxLines) / 50)
  else s

/-- Third penalty step:
`if (complexFunctions.length > 0) fileScore = max(0, fileScore - complexFunctions.length * 3)`. -/
def applyFunctionsPenalty (r : FileMetric) (s : ℚ) : ℚ :=
  if 0 < overComplexFunctionCount r then
    max 0 (s - (overComplexFunctionCount r : ℚ) * 3)
  else s

/-- The effective (penalized) score of one file inside
`calculateMaintainabilityScore`: starts from `result.maintainability` and
applies the three penalty steps in source order. -/
def fileScoreAfterPenalties (r : FileMetric) : ℚ :=
  applyFunctionsPenalty r (applyLinesPenalty r (applyComplexityPenalty r r.maintainability))

/-- The loop of `calculateMaintainabilityScore`: accumulates
`(totalScore, totalWeight)`, skipping entries whose analysis errored
(`if (result.error) continue`). -/
def scoreTotals (results : List FileMetric) : ℚ × ℚ :=
  results.foldl
    (fun acc r =>
      if r.error then acc
      else (acc.1 + fileScoreAfterPenalties r * fileWeight r, acc.2 + fileWeight r))
    (0, 0)

/-- `calculateMaintainabilityScore(results)`: 0 on an empty list, otherwise the
accumulated weighted sum divided by the accumulated weight (0 if the weight is
not positive). -/
def calculateMaintainabilityScore (results : List FileMetric) : ℚ :=
  if results.length = 0 then 0
  else
    let t := scoreTotals results
    if 0 < t.2 then t.1 / t.2 else 0

/-! ## Penalty decomposition helpers -/

/-- The complexity penalty of a file, as an unconditional amount
(0 when the file is at or below the threshold). -/
def complexityPenalty (r : FileMetric) : ℚ :=
  if config.complexity.maxCyclomatic < r.complexity then
    (r.complexity - config.complexity.maxCyclomatic) * 2
  else 0

/-- The large-file penalty of a file, as an unconditional amount. -/
def linesPenalty (r : FileMetric) : ℚ :=
  if config.complexity.maxLines < r.lines then
    (r.lines - config.complexity.maxLines) / 50
  else 0

/-- The over-complex-functions penalty of a file, as an unconditional amount. -/
def functionsPenalty (r : FileMetric) : ℚ := (overComplexFunctionCount r : ℚ) * 3

lemma complexityPenalty_nonneg (r : FileMetric) : 0 ≤ complexityPenalty r := by
  unfold complexityPenalty
  split_ifs with h
  · nlinarith [h]
  · exact le_refl 0

lemma linesPenalty_nonneg (r : FileMetric) : 0 ≤ linesPenalty r := by
  unfold linesPenalty
  split_ifs with h
  · have h300 : (0 : ℚ) ≤ r.lines - config.complexity.maxLines := by linarith
    positivity
  · exact le_refl 0

lemma functionsPenalty_nonneg (r : FileMetric) : 0 ≤ functionsPenalty r := by
  unfold functionsPenalty
  positivity

lemma max_zero_sub_max_zero (x p : ℚ) (hp : 0 ≤ p) :
    max 0 (max 0 x - p) = max 0 (x - p) := by
  rcases le_total x 0 with h | h
  · rw [max_eq_left h, max_eq_left (by linarith), max_eq_left (by linarith)]
  · rw [max_eq_right h]

lemma applyComplexityPenalty_max (r : FileMetric) (x : ℚ) :
    applyComplexityPenalty r (max 0 x) = max 0 (x - complexityPenalty r) := by
  unfold applyComplexityPenalty complexityPenalty
  split_ifs with h
  · exact max_zero_sub_max_zero _ _ (by nlinarith [h])
  · rw [sub_zero]

lemma applyLinesPenalty_max (r : FileMetric) (x : ℚ) :
    applyLinesPenalty r (max 0 x) = max 0 (x - linesPenalty r) := by
  unfold applyLinesPenalty linesPenalty
  split_ifs with h
  · refine max_zero_sub_max_zero _ _ ?_
    have h300 : (0 : ℚ) ≤ r.lines - config.complexity.maxLines := by linarith
    positivity
  · rw [sub_zero]

lemma applyFunctionsPenalty_max (r : FileMetric) (x : ℚ) :
    applyFunctionsPenalty r (max 0 x) = max 0 (x - functionsPenalty r) := by
  unfold applyFunctionsPenalty functionsPenalty
  split_ifs with h
  · exact max_zero_sub_max_zero _ _ (by positivity)
  · have h0 : overComplexFunctionCount r = 0 := Nat.eq_zero_of_not_pos h
    rw [h0]
    norm_num

lemma applyComplexityPenalty_of_nonneg (r : FileMetric) (s : ℚ) (hs : 0 ≤ s) :
    applyComplexityPenalty r s = max 0 (s - complexityPenalty r) := by
  conv_lhs => rw [show s = max 0 s from (max_eq_right hs).symm]
  exact applyComplexityPenalty_max r s

/-- Under a nonnegative raw sub-score, the sequential clamping in the source is
equivalent to subtracting all three penalties and flooring once at zero. -/
lemma fileScoreAfterPenalties_eq (r : FileMetric) (h : 0 ≤ r.maintainability) :
    fileScoreAfterPenalties r =
      max 0 (r.maintainability - complexityPenalty r - linesPenalty r - functionsPenalty r) := by
  unfold fileScoreAfterPenalties
  rw [applyComplexityPenalty_of_nonneg r _ h, applyLinesPenalty_max, applyFunctionsPenalty_max]

lemma fileScoreAfterPenalties_nonneg (r : FileMetric) (h : 0 ≤ r.maintainability) :
    0 ≤ fileScoreAfterPenalties r := by
  rw [fileScoreAfterPenalties_eq r h]
  exact le_max_left _ _

lemma fileScoreAfterPenalties_le (r : FileMetric) (h : 0 ≤ r.maintainability) :
    fileScoreAfterPenalties r ≤ r.maintainability := by
  rw [fileScoreAfterPenalties_eq r h]
  refine max_le h ?_
  have h1 := complexityPenalty_nonneg r
  have h2 := linesPenalty_nonneg r
  have h3 := functionsPenalty_nonneg r
  linarith

lemma fileWeight_pos (r : FileMetric) : 0 < fileWeight r :=
  lt_of_lt_of_le zero_lt_one (le_max_left 1 _)

/-! ## Aggregation characterization -/

/-- The sublist of analysis results that did not error
(`if (result.error) continue` skips the rest). -/
def keptFiles (results : List FileMetric) : List FileMetric :=
  results.filter fun r => !r.error

/-- The accumulated `totalScore` of the loop. -/
def weightedScoreSum (results : List FileMetric) : ℚ :=
  ((keptFiles results).map fun r => fileScoreAfterPenalties r * fileWeight r).sum

/-- The accumulated `totalWeight` of the loop. -/
def weightSum (results : List FileMetric) : ℚ :=
  ((keptFiles results).map fileWeight).sum

lemma weightedScoreSum_cons (r : FileMetric) (rs : List FileMetric) :
    weightedScoreSum (r :: rs) =
      (if r.error then 0 else fileScoreAfterPenalties r * fileWeight r) +
        weightedScoreSum rs := by
  unfold weightedScoreSum keptFiles
  by_cases hr : r.error = true <;> simp [List.filter_cons, hr]

lemma weightSum_cons (r : FileMetric) (rs : List FileMetric) :
    weightSum (r :: rs) =
      (if r.error then 0 else fileWeight r) + weightSum rs := by
  unfold weightSum keptFiles
  by_cases hr : r.error = true <;> simp [List.filter_cons, hr]

lemma scoreTotals_loop (results : List FileMetric) :
    ∀ a b : ℚ,
      results.foldl
        (fun acc r =>
          if r.error then acc
          else (acc.1 + fileScoreAfterPenalties r * fileWeight r, acc.2 + fileWeight r))
        (a, b) = (a + weightedScoreSum results, b + weightSum results) := by
  induction results with
  | nil =>
    intro a b
    simp [weightedScoreSum, weightSum, keptFiles]
  | cons r rs ih =>
    intro a b
    rw [weightedScoreSum_cons, weightSum_cons]
    by_cases hr : r.error = true
    · simp only [List.foldl_cons, hr, if_true]
      rw [ih]
      simp
    · simp only [List.foldl_cons, hr, if_false]
      rw [ih]
      refine Prod.ext ?_ ?_ <;> simp <;> ring

lemma scoreTotals_eq (results : List FileMetric) :
    scoreTotals results = (weightedScoreSum results, weightSum results) := by
  unfold scoreTotals
  rw [scoreTotals_loop results 0 0]
  simp

/-- `calculateMaintainabilityScore` rewritten through the filtered sums. -/
lemma calculateMaintainabilityScore_eq (results : List FileMetric) :
    calculateMaintainabilityScore results =
      if results.length = 0 then 0
      else if 0 < weightSum results then weightedScoreSum results / weightSum results
      else 0 := by
  unfold calculateMaintainabilityScore
  rw [scoreTotals_eq]

lemma weightSum_nonneg (results : List FileMetric) : 0 ≤ weightSum results := by
  refine List.sum_nonneg ?_
  intro x hx
  obtain ⟨r, _, rfl⟩ := List.mem_map.mp hx
  exact (fileWeight_pos r).le

lemma weightSum_append (l1 l2 : List FileMetric) :
    weightSum (l1 ++ l2) = weightSum l1 + weightSum l2 := by
  unfold weightSum keptFiles
  rw [List.filter_append, List.map_append, List.sum_append]

lemma weightedScoreSum_append (l1 l2 : List FileMetric) :
    weightedScoreSum (l1 ++ l2) = weightedScoreSum l1 + weightedScoreSum l2 := by
  unfold weightedScoreSum keptFiles
  rw [List.filter_append, List.map_append, List.sum_append]

/-! ## Monotonicity of the complexity penalty -/

lemma complexityPenalty_le_of_le (r : FileMetric) (c c' : ℚ) (hcc : c ≤ c') :
    complexityPenalty { r with complexity := c } ≤
      complexityPenalty { r with complexity := c' } := by
  show
    (if config.complexity.maxCyclomatic < c then
        (c - config.complexity.maxCyclomatic) * 2 else 0) ≤
      (if config.complexity.maxCyclomatic < c' then
        (c' - config.complexity.maxCyclomatic) * 2 else 0)
  split_ifs with h1 h2 h2
  · linarith
  · linarith
  · linarith
  · exact le_refl 0

lemma fileScore_anti_in_complexity (r : FileMetric) (c c' : ℚ) (hcc : c ≤ c')
    (hm : 0 ≤ r.maintainability) :
    fileScoreAfterPenalties { r with complexity := c' } ≤
      fileScoreAfterPenalties { r with complexity := c } := by
  rw [fileScoreAfterPenalties_eq { r with complexity := c' } hm,
    fileScoreAfterPenalties_eq { r with complexity := c } hm]
  have h1 := complexityPenalty_le_of_le r c c' hcc
  have h2 : linesPenalty { r with complexity := c' } =
      linesPenalty { r with complexity := c } := rfl
  have h3 : functionsPenalty { r with complexity := c' } =
      functionsPenalty { r with complexity := c } := rfl
  rw [h2, h3]
  exact max_le_max (le_refl 0) (by linarith)

/-! ## Claim C4: per-file penalty formula -/

/-- C4 (counterexample).  A parsed file whose raw maintainability sub-score is
negative and which triggers no penalty keeps its negative score: the effective
score is not floored at zero as the claim states. -/
theorem penalized_score_negative_example :
    ((⟨"neg.ts", false, 1, -5, [], 10⟩ : FileMetric).error = false) ∧
    fileScoreAfterPenalties ⟨"neg.ts", false, 1, -5, [], 10⟩ < 0 := by
  constructor
  · rfl
  · norm_num [fileScoreAfterPenalties, applyComplexityPenalty, applyLinesPenalty,
      applyFunctionsPenalty, overComplexFunctionCount, config]

/-- C4 (amended).  For a file whose raw maintainability sub-score is
nonnegative, the effective score equals the raw score minus the complexity
penalty `2 × (cc − threshold)`, the line penalty `(lines − threshold)/50` and
the function penalty `3 × overComplexFunctionCount`, floored at zero, and it
never goes negative. -/
theorem penalized_score_formula (r : FileMetric) (hm : 0 ≤ r.maintainability) :
    fileScoreAfterPenalties r =
      max 0 (r.maintainability - complexityPenalty r - linesPenalty r - functionsPenalty r) ∧
    0 ≤ fileScoreAfterPenalties r :=
  ⟨fileScoreAfterPenalties_eq r hm, fileScoreAfterPenalties_nonneg r hm⟩

/-- C4 (witness): the amended theorem applied at a concrete file. -/
theorem penalized_score_formula_witness :
    (0 : ℚ) ≤ (⟨"ok.ts", false, 15, 80, [], 400⟩ : FileMetric).maintainability ∧
    (fileScoreAfterPenalties ⟨"ok.ts", false, 15, 80, [], 400⟩ =
        max 0 ((⟨"ok.ts", false, 15, 80, [], 400⟩ : FileMetric).maintainability
          - complexityPenalty ⟨"ok.ts", false, 15, 80, [], 400⟩
          - linesPenalty ⟨"ok.ts", false, 15, 80, [], 400⟩
          - functionsPenalty ⟨"ok.ts", false, 15, 80, [], 400⟩) ∧
      0 ≤ fileScoreAfterPenalties ⟨"ok.ts", false, 15, 80, [], 400⟩) :=
  ⟨by decide, penalized_score_formula ⟨"ok.ts", false, 15, 80, [], 400⟩ (by decide)⟩

/-! ## Claim C5: weighted-mean aggregation -/

/-- The aggregation formula as the specification words it: each file weighted
by its own line count (not by `max 1 lines`). -/
def specLineWeightedMean (results : List FileMetric) : ℚ :=
  ((results.map fun r => fileScoreAfterPenalties r * r.lines).sum) /
    ((results.map FileMetric.lines).sum)

/-- The aggregation the source computes on error-free input: each file
weighted by `max 1 lines`. -/
def clampedLineWeightedMean (results : List FileMetric) : ℚ :=
  ((results.map fun r => fileScoreAfterPenalties r * fileWeight r).sum) /
    ((results.map fileWeight).sum)

/-- C5 (counterexample).  A zero-line file receives weight `max(1, 0) = 1`
rather than weight 0, so the aggregate differs from the pure line-count
weighted mean of the claim. -/
theorem weighted_mean_zero_lines_example :
    calculateMaintainabilityScore
        [⟨"a.ts", false, 1, 0, [], 0⟩, ⟨"b.ts", false, 1, 100, [], 50⟩] ≠
      specLineWeightedMean
        [⟨"a.ts", false, 1, 0, [], 0⟩, ⟨"b.ts", false, 1, 100, [], 50⟩] := by
  norm_num [calculateMaintainabilityScore, scoreTotals, specLineWeightedMean,
    fileScoreAfterPenalties, applyComplexityPenalty, applyLinesPenalty,
    applyFunctionsPenalty, overComplexFunctionCount, fileWeight, config]

/-- C5 (amended).  On a non-empty list of error-free metrics the overall score
is the weighted mean with per-file weight `max 1 lineCount`, and for a
single-file input the aggregate equals that file's own penalized score. -/
theorem weighted_mean_clamped (results : List FileMetric)
    (hne : results ≠ []) (herr : ∀ r ∈ results, r.error = false) :
    calculateMaintainabilityScore results = clampedLineWeightedMean results ∧
    ∀ r : FileMetric, r.error = false →
      calculateMaintainabilityScore [r] = fileScoreAfterPenalties r := by
  constructor
  · have hkept : keptFiles results = results := by
      unfold keptFiles
      refine List.filter_eq_self.mpr ?_
      intro r hr
      simp [herr r hr]
    have hws : weightedScoreSum results =
        ((results.map fun r => fileScoreAfterPenalties r * fileWeight r).sum) := by
      unfold weightedScoreSum
      rw [hkept]
    have hw : weightSum results = ((results.map fileWeight).sum) := by
      unfold weightSum
      rw [hkept]
    have hpos : 0 < (results.map fileWeight).sum := by
      refine List.sum_pos _ ?_ ?_
      · intro x hx
        obtain ⟨r, _, rfl⟩ := List.mem_map.mp hx
        exact fileWeight_pos r
      · simpa using hne
    rw [calculateMaintainabilityScore_eq,
      if_neg (fun h => hne (List.length_eq_zero.mp h)), hws, hw, if_pos hpos]
    rfl
  · intro r hrf
    rw [calculateMaintainabilityScore_eq]
    have h1 : ([r] : List FileMetric).length ≠ 0 := by simp
    rw [if_neg h1]
    have hk : keptFiles [r] = [r] := by
      simp [keptFiles, List.filter_cons, hrf]
    have hw : weightSum [r] = fileWeight r := by
      unfold weightSum
      rw [hk]
      simp
    have hws : weightedScoreSum [r] = fileScoreAfterPenalties r * fileWeight r := by
      unfold weightedScoreSum
      rw [hk]
      simp
    rw [hw, hws, if_pos (fileWeight_pos r)]
    exact mul_div_cancel_right₀ _ (fileWeight_pos r).ne'

/-- C5 (witness): the amended theorem applied at a concrete two-file list. -/
theorem weighted_mean_clamped_witness :
    ([(⟨"a.ts", false, 1, 40, [], 20⟩ : FileMetric), ⟨"b.ts", false, 1, 100, [], 50⟩] ≠ []) ∧
    calculateMaintainabilityScore
        [(⟨"a.ts", false, 1, 40, [], 20⟩ : FileMetric), ⟨"b.ts", false, 1, 100, [], 50⟩] =
      clampedLineWeightedMean
        [(⟨"a.ts", false, 1, 40, [], 20⟩ : FileMetric), ⟨"b.ts", false, 1, 100, [], 50⟩] :=
  ⟨by simp,
    (weighted_mean_clamped _ (by simp) (by decide)).1⟩

/-! ## Claim C8: monotonicity in one file's complexity -/

/-- C8 (counterexample).  Raising a file's cyclomatic complexity past the
threshold can RAISE the overall score when the raw sub-score is negative,
because the penalty branch clamps at zero while the no-penalty branch passes
the negative raw score through. -/
theorem complexity_monotonicity_example :
    ¬ (calculateMaintainabilityScore [⟨"m.ts", false, 15, -5, [], 10⟩] ≤
        calculateMaintainabilityScore [⟨"m.ts", false, 1, -5, [], 10⟩]) := by
  norm_num [calculateMaintainabilityScore, scoreTotals, fileScoreAfterPenalties,
    applyComplexityPenalty, applyLinesPenalty, applyFunctionsPenalty,
    overComplexFunctionCount, fileWeight, config]

/-- C8 (amended).  Holding every other metric of every file constant, the
overall score is non-increasing in one file's cyclomatic complexity, provided
that file's raw maintainability sub-score is nonnegative. -/
theorem score_antitone_in_complexity (l1 l2 : List FileMetric) (r : FileMetric)
    (c c' : ℚ) (hcc : c ≤ c') (hm : 0 ≤ r.maintainability) :
    calculateMaintainabilityScore (l1 ++ { r with complexity := c' } :: l2) ≤
      calculateMaintainabilityScore (l1 ++ { r with complexity := c } :: l2) := by
  rw [calculateMaintainabilityScore_eq, calculateMaintainabilityScore_eq]
  have hlen1 : (l1 ++ ({ r with complexity := c' } : FileMetric) :: l2).length ≠ 0 := by
    simp
  have hlen2 : (l1 ++ ({ r with complexity := c } : FileMetric) :: l2).length ≠ 0 := by
    simp
  rw [if_neg hlen1, if_neg hlen2]
  have hDeq : weightSum (l1 ++ ({ r with complexity := c' } : FileMetric) :: l2) =
      weightSum (l1 ++ ({ r with complexity := c } : FileMetric) :: l2) := by
    rw [weightSum_append, weightSum_append, weightSum_cons, weightSum_cons]
    rfl
  by_cases herr : r.error = true
  · have hc1 : (({ r with complexity := c' } : FileMetric).error = true) := herr
    have hc2 : (({ r with complexity := c } : FileMetric).error = true) := herr
    have hNeq :
        weightedScoreSum (l1 ++ ({ r with complexity := c' } : FileMetric) :: l2) =
          weightedScoreSum (l1 ++ ({ r with complexity := c } : FileMetric) :: l2) := by
      rw [weightedScoreSum_append, weightedScoreSum_append,
        weightedScoreSum_cons, weightedScoreSum_cons, if_pos hc1, if_pos hc2]
    rw [hNeq, hDeq]
  · have hc1 : ¬ (({ r with complexity := c' } : FileMetric).error = true) := herr
    have hc2 : ¬ (({ r with complexity := c } : FileMetric).error = true) := herr
    have hD : 0 < weightSum (l1 ++ ({ r with complexity := c } : FileMetric) :: l2) := by
      rw [weightSum_append, weightSum_cons, if_neg hc2]
      have h1 := weightSum_nonneg l1
      have h2 := weightSum_nonneg l2
      have h3 := fileWeight_pos ({ r with complexity := c } : FileMetric)
      linarith
    have hmul : fileScoreAfterPenalties { r with complexity := c' } *
          fileWeight { r with complexity := c' } ≤
        fileScoreAfterPenalties { r with complexity := c } *
          fileWeight { r with complexity := c } :=
      mul_le_mul_of_nonneg_right (fileScore_anti_in_complexity r c c' hcc hm)
        (fileWeight_pos _).le
    have hN : weightedScoreSum (l1 ++ ({ r with complexity := c' } : FileMetric) :: l2) ≤
        weightedScoreSum (l1 ++ ({ r with complexity := c } : FileMetric) :: l2) := by
      rw [weightedScoreSum_append, weightedScoreSum_append,
        weightedScoreSum_cons, weightedScoreSum_cons, if_neg hc1, if_neg hc2]
      linarith
    rw [hDeq, if_pos hD, if_pos hD]
    exact div_le_div_of_nonneg_right hN hD.le

/-- C8 (witness): the amended theorem applied at a concrete file. -/
theorem score_antitone_in_complexity_witness :
    (5 : ℚ) ≤ 20 ∧
    (0 : ℚ) ≤ (⟨"w8.ts", false, 0, 50, [], 10⟩ : FileMetric).maintainability ∧
    calculateMaintainabilityScore
        [({ (⟨"w8.ts", false, 0, 50, [], 10⟩ : FileMetric) with complexity := 20 })] ≤
      calculateMaintainabilityScore
        [{ (⟨"w8.ts", false, 0, 50, [], 10⟩ : FileMetric) with complexity := 5 }] :=
  ⟨by norm_num, by decide,
    score_antitone_in_complexity [] [] ⟨"w8.ts", false, 0, 50, [], 10⟩ 5 20
      (by norm_num) (by decide)⟩

/-! ## Claim C9: score bounds -/

/-- C9 (counterexample).  `calculateMaintainabilityScore` neither caps the
score at 100 nor floors it at 0 when the external analyzer reports raw
sub-scores outside [0, 100] (the non-normalized escomplex maintainability
index ranges up to 171 and below 0). -/
theorem score_out_of_bounds_example :
    ¬ (calculateMaintainabilityScore [⟨"big.ts", false, 1, 171, [], 10⟩] ≤ 100) ∧
    ¬ (0 ≤ calculateMaintainabilityScore [⟨"neg2.ts", false, 1, -5, [], 10⟩]) := by
  constructor <;>
    norm_num [calculateMaintainabilityScore, scoreTotals, fileScoreAfterPenalties,
      applyComplexityPenalty, applyLinesPenalty, applyFunctionsPenalty,
      overComplexFunctionCount, fileWeight, config]

/-- C9 (amended).  When every file's raw maintainability sub-score lies in
[0, 100], the overall score lies in [0, 100]. -/
theorem score_bounded (results : List FileMetric)
    (h : ∀ r ∈ results, 0 ≤ r.maintainability ∧ r.maintainability ≤ 100) :
    0 ≤ calculateMaintainabilityScore results ∧
      calculateMaintainabilityScore results ≤ 100 := by
  rw [calculateMaintainabilityScore_eq]
  by_cases h0 : results.length = 0
  · rw [if_pos h0]
    norm_num
  · rw [if_neg h0]
    by_cases hwpos : 0 < weightSum results
    · rw [if_pos hwpos]
      have hkept : ∀ r ∈ keptFiles results, 0 ≤ r.maintainability ∧ r.maintainability ≤ 100 :=
        fun r hr => h r (List.mem_of_mem_filter hr)
      constructor
      · refine div_nonneg ?_ hwpos.le
        refine List.sum_nonneg ?_
        intro x hx
        obtain ⟨r, hr, rfl⟩ := List.mem_map.mp hx
        exact mul_nonneg (fileScoreAfterPenalties_nonneg r (hkept r hr).1)
          (fileWeight_pos r).le
      · rw [div_le_iff₀ hwpos]
        have hle : weightedScoreSum results ≤
            ((keptFiles results).map fun r => 100 * fileWeight r).sum := by
          refine List.sum_le_sum ?_
          intro r hr
          exact mul_le_mul_of_nonneg_right
            ((fileScoreAfterPenalties_le r (hkept r hr).1).trans (hkept r hr).2)
            (fileWeight_pos r).le
        calc weightedScoreSum results
            ≤ ((keptFiles results).map fun r => 100 * fileWeight r).sum := hle
          _ = 100 * weightSum results := List.sum_map_mul_left _ _ _
    · rw [if_neg hwpos]
      norm_num

/-- C9 (witness): the amended theorem applied at a concrete list. -/
theorem score_bounded_witness :
    (∀ r ∈ [(⟨"w9.ts", false, 3, 80, [], 100⟩ : FileMetric)],
        0 ≤ r.maintainability ∧ r.maintainability ≤ 100) ∧
    (0 ≤ calculateMaintainabilityScore [(⟨"w9.ts", false, 3, 80, [], 100⟩ : FileMetric)] ∧
      calculateMaintainabilityScore [(⟨"w9.ts", false, 3, 80, [], 100⟩ : FileMetric)] ≤ 100) :=
  ⟨by decide, score_bounded _ (by decide)⟩

/-! ## Claim C10: error entries are ignored -/

/-- C10.  The aggregate over any list equals the aggregate over the sublist of
entries without a parse error, and a list in which every entry errored yields
overall score 0. -/
theorem score_ignores_error_entries (results : List FileMetric) :
    calculateMaintainabilityScore results =
      calculateMaintainabilityScore (keptFiles results) ∧
    ((∀ r ∈ results, r.error = true) → calculateMaintainabilityScore results = 0) := by
  have hkk : keptFiles (keptFiles results) = keptFiles results := by
    unfold keptFiles
    rw [List.filter_filter]
    simp
  have hws : weightedScoreSum (keptFiles results) = weightedScoreSum results := by
    unfold weightedScoreSum
    rw [hkk]
  have hw : weightSum (keptFiles results) = weightSum results := by
    unfold weightSum
    rw [hkk]
  have heq : calculateMaintainabilityScore results =
      calculateMaintainabilityScore (keptFiles results) := by
    rw [calculateMaintainabilityScore_eq, calculateMaintainabilityScore_eq, hws, hw]
    by_cases h0 : results.length = 0
    · have hnil : results = [] := List.length_eq_zero.mp h0
      subst hnil
      simp [keptFiles]
    · rw [if_neg h0]
      by_cases hk0 : (keptFiles results).length = 0
      · have hke : keptFiles results = [] := List.length_eq_zero.mp hk0
        rw [if_pos hk0]
        have hwz : weightSum results = 0 := by
          rw [← hw]
          unfold weightSum
          rw [hkk, hke]
          simp
        have hnp : ¬ 0 < weightSum results := by
          rw [hwz]
          exact lt_irrefl 0
        rw [if_neg hnp]
      · rw [if_neg hk0]
  refine ⟨heq, fun hall => ?_⟩
  have hke : keptFiles results = [] := by
    unfold keptFiles
    rw [List.filter_eq_nil_iff]
    intro a ha
    simp [hall a ha]
  rw [heq, hke]
  rfl

/-- C10 (witness): a concrete all-error list aggregates to 0 through the
theorem. -/
theorem score_ignores_error_entries_witness :
    calculateMaintainabilityScore [(⟨"err.ts", true, 0, 0, [], 0⟩ : FileMetric)] = 0 :=
  (score_ignores_error_entries [⟨"err.ts", true, 0, 0, [], 0⟩]).2 (by decide)

/-! ## Orchestration engine: tool descriptor registry (quality-check.js) -/

/-- A tool descriptor from the `tools` object: check command (`command` +
`args`), optional fix command (`fixArgs`), description, ordering category and
step number.  The emoji icon field is omitted. -/
structure Tool where
  command : String
  args : List String
  fixArgs : Option (List String)
  description : String
  category : String
  order : ℕ
deriving DecidableEq

/-- The `type-check` descriptor (named so the C7 witness can cite it). -/
def typeCheckTool : Tool :=
  { command := "npx", args := ["tsc", "--noEmit"], fixArgs := none,
    description := "TypeScript type checking", category := "type-checking", order := 4 }

/-- The `tools` registry, in source (insertion) order. -/
def tools : List (String × Tool) :=
  [("prettier",
    { command := "npx", args := ["prettier", "--check", "."],
      fixArgs := some ["prettier", "--write", "."],
      description := "Code formatting check (Prettier)",
      category := "formatting", order := 1 }),
   ("import-sorting",
    { command := "npx",
      args := ["eslint", ".", "--config", ".eslint-configs/import-sorting.js"],
      fixArgs := some ["eslint", ".", "--config", ".eslint-configs/import-sorting.js", "--fix"],
      description := "Import sorting and organization (ESLint + import plugin)",
      category := "import-sorting", order := 2 }),
   ("linting",
    { command := "npx",
      args := ["eslint", ".", "--config", ".eslint-configs/linting.js"],
      fixArgs := some ["eslint", ".", "--config", ".eslint-configs/linting.js", "--fix"],
      description := "Code quality linting (ESLint + SonarJS)",
      category := "linting", order := 3 }),
   ("eslint",
    { command := "npx",
      args := ["eslint", ".", "--config", ".eslint-configs/linting.js"],
      fixArgs := some ["eslint", ".", "--config", ".eslint-configs/linting.js", "--fix"],
      description := "ESLint standalone execution",
      category := "linting", order := 3 }),
   ("type-check", typeCheckTool),
   ("security-scanning",
    { command := "npx",
      args := ["eslint", ".", "--config", ".eslint-configs/security.js"],
      fixArgs := some ["eslint", ".", "--config", ".eslint-configs/security.js", "--fix"],
      description := "Security vulnerability scanning (ESLint security plugin)",
      category := "security-scanning", order := 5 }),
   ("vulnerability-checking",
    { command := "npm", args := ["audit", "--audit-level=moderate"], fixArgs := none,
      description := "Dependency vulnerability checking (npm audit)",
      category := "vulnerability-checking", order := 6 }),
   ("dead-code",
    { command := "npx", args := ["ts-prune"], fixArgs := none,
      description := "Dead code detection (ts-prune)",
      category := "dead-code", order := 7 }),
   ("duplication",
    { command := "npx",
      args := ["jscpd", ".", "--reporters", "console,html", "--output",
        "./reports/duplication", "--ignore", "**/node_modules/**,**/.next/**,**/dist/**"],
      fixArgs := none,
      description := "Code duplication detection (jscpd)",
      category := "duplication", order := 8 }),
   ("complexity",
    { command := "npx",
      args := ["eslint", ".", "--config", ".eslint-configs/complexity.js"],
      fixArgs := none,
      description := "Code complexity analysis (ESLint complexity rules)",
      category := "complexity", order := 9 }),
   ("maintainability",
    { command := "node", args := ["scripts/maintainability-check.js"], fixArgs := none,
      description := "Maintainability index calculation (ESComplex)",
      category := "maintainability", order := 10 }),
   ("dependency-check",
    { command := "npx",
      args := ["depcruise", "--validate", ".dependency-cruiser.cjs", "src/"],
      fixArgs := none,
      description := "Dependency analysis and validation (dependency-cruiser)",
      category := "dependency-check", order := 11 })]

/-- The `toolGroups` suite table, in source order. -/
def toolGroups : List (String × List String) :=
  [("formatting", ["prettier"]),
   ("import-sorting", ["import-sorting"]),
   ("linting", ["linting"]),
   ("type-checking", ["type-check"]),
   ("security-scanning", ["security-scanning"]),
   ("vulnerability-checking", ["vulnerability-checking"]),
   ("dead-code", ["dead-code"]),
   ("duplication", ["duplication"]),
   ("complexity", ["complexity"]),
   ("maintainability", ["maintainability"]),
   ("dependency-check", ["dependency-check"]),
   ("security", ["security-scanning", "vulnerability-checking"]),
   ("analysis", ["dead-code", "duplication", "complexity", "maintainability",
     "dependency-check"]),
   ("required", ["prettier", "import-sorting", "linting", "type-check"]),
   ("fast", ["prettier", "import-sorting", "linting", "type-check"]),
   ("essential", ["prettier", "linting", "type-check"]),
   ("all", ["prettier", "import-sorting", "linting", "type-check",
     "security-scanning", "vulnerability-checking", "dead-code", "duplication",
     "complexity", "maintainability", "dependency-check"])]

/-- Identifier resolution in `main`: a suite-table key resolves to its member
list (`toolGroups[options.tool]`), otherwise a registry key resolves to a
one-element list (`tools[options.tool]`), otherwise resolution fails. -/
def resolvedFor (ident : String) : Option (List String) :=
  match List.lookup ident toolGroups with
  | some g => some g
  | none =>
    match List.lookup ident tools with
    | some _ => some [ident]
    | none => none

/-- The resolved member list of the `"all"` suite. -/
def allSuite : List String := (List.lookup "all" toolGroups).getD []

/-- The category keys iterated by `main` for a non-fix `"all"` run
(`for (const category of ["formatting", "linting", "security", "analysis"])`). -/
def mainCategoryOrder : List String := ["formatting", "linting", "security", "analysis"]

/-- The tools actually executed by a non-fix `"all"` run: `main` iterates the
four category groups and filters each against the resolved list
(`toolGroups[category].filter((tool) => toolsToRun.includes(tool))`). -/
def allNoFixPlannedTools : List String :=
  mainCategoryOrder.flatMap fun cat =>
    ((List.lookup cat toolGroups).getD []).filter fun t => allSuite.contains t

/-! ## Claim C1: the non-fix `"all"` run drops two registered tools -/

/-- C1.  The `"all"` suite resolves to all 11 registered pipeline tools
including `import-sorting` and `type-check`, but the category loop that
executes a non-fix `"all"` run covers only the formatting / linting /
security / analysis groups, so exactly 9 tools are invoked and
`import-sorting` and `type-check` are silently skipped — contradicting the
script's own help text ("Run complete 11-step quality workflow"). -/
theorem allSuite_category_loop_drops_tools :
    allSuite.length = 11 ∧
    "import-sorting" ∈ allSuite ∧ "type-check" ∈ allSuite ∧
    allNoFixPlannedTools =
      ["prettier", "linting", "security-scanning", "vulnerability-checking",
       "dead-code", "duplication", "complexity", "maintainability",
       "dependency-check"] ∧
    "import-sorting" ∉ allNoFixPlannedTools ∧
    "type-check" ∉ allNoFixPlannedTools := by
  decide

/-! ## Claim C2: behavior of `main` on an unknown identifier -/

/-- The help aliases accepted by `main`
(`options.tool === "help" || "--help" || "-h"`). -/
def isHelpIdent (ident : String) : Bool :=
  ident == "help" || ident == "--help" || ident == "-h"

/-- First line of the usage text printed by `printHelp` (abridged: the banner
and listing that follow name no further behavior needed here). -/
def helpUsageText : String := "node scripts/quality-check.js [tool] [options]"

/-- The header banner of a run, flattened to its information content: the
project name and the source directory (the box-drawing frame is omitted). -/
def headerText : String := "Complete Quality Suite Quality Checks Source Directory: src"

/-- The first message printed on an unknown identifier. -/
def unknownToolText (ident : String) : String := "Unknown tool or group: " ++ ident

/-- The second message printed on an unknown identifier. -/
def helpHintText : String := "Use \"help\" to see available options"

/-- What `main` has done by the time identifier resolution completes: whether
`ensureReportsDirectory()` ran, whether the process already exited (and with
which code), the console lines produced, and the tool list selected for
execution (empty when nothing will run). -/
structure EarlyTrace where
  reportsDirCreated : Bool
  exitCode : Option ℕ
  consoleLines : List String
  plannedTools : List String
deriving DecidableEq

/-- The prefix of `main` up to identifier resolution: the help aliases print
usage and return (exit 0) before `ensureReportsDirectory()`; every other
identifier first creates the reports directory and prints the header
(non-quiet), then resolves; an unresolved identifier prints the two error
messages and exits with code 1 before any tool is spawned. -/
def mainEarly (ident : String) (quiet : Bool) : EarlyTrace :=
  if isHelpIdent ident then
    { reportsDirCreated := false, exitCode := some 0,
      consoleLines := [helpUsageText], plannedTools := [] }
  else
    let headLines := if quiet then [] else [headerText]
    match resolvedFor ident with
    | some names =>
      { reportsDirCreated := true, exitCode := none,
        consoleLines := headLines, plannedTools := names }
    | none =>
      { reportsDirCreated := true, exitCode := some 1,
        consoleLines := headLines ++ [unknownToolText ident, helpHintText],
        plannedTools := [] }

/-- Substring occurrence on character lists. -/
def listOccurs (pat : List Char) : List Char → Bool
  | [] => pat.isEmpty
  | c :: rest => pat.isPrefixOf (c :: rest) || listOccurs pat rest

/-- Substring occurrence on strings. -/
def occursWithin (pat s : String) : Bool := listOccurs pat.toList s.toList

/-- Every identifier accepted by `resolvedFor`: registry keys then suite
keys. -/
def validIdentifiers : List String := tools.map Prod.fst ++ toolGroups.map Prod.fst

/-- The claim's requirement on the error output, as the specification words
it: every valid identifier is named somewhere in the printed lines. -/
def namesAllValidIdentifiers (lines : List String) : Bool :=
  validIdentifiers.all fun ident => lines.any fun line => occursWithin ident line

/-- C2 (counterexample).  On the unknown identifier `"bogus"` the engine does
exit with code 1 without spawning any tool, but it has already created the
reports directory (a side effect the claim rules out), and its error output
names none of the valid identifiers (it only points at `help`). -/
theorem unknown_ident_creates_reports_dir :
    (mainEarly "bogus" false).reportsDirCreated = true ∧
    (mainEarly "bogus" false).exitCode = some 1 ∧
    (mainEarly "bogus" false).plannedTools = [] ∧
    namesAllValidIdentifiers (mainEarly "bogus" false).consoleLines = false := by
  decide

/-- C2 (amended).  For every identifier that is neither a help alias nor a
registered tool or suite name, `main` exits with code 1, plans and spawns no
tool, and prints the fixed "Unknown tool or group" message plus a hint to run
`help` — but the reports directory has already been created at that point, and
the message does not enumerate the valid identifiers. -/
theorem unknown_ident_rejected (ident : String) (quiet : Bool)
    (h1 : isHelpIdent ident = false) (h2 : resolvedFor ident = none) :
    mainEarly ident quiet =
      { reportsDirCreated := true, exitCode := some 1,
        consoleLines :=
          (if quiet then [] else [headerText]) ++ [unknownToolText ident, helpHintText],
        plannedTools := [] } := by
  unfold mainEarly
  rw [h1, h2]
  simp

/-- C2 (witness): the amended theorem applied at the concrete identifier
`"bogus"` in quiet mode. -/
theorem unknown_ident_rejected_witness :
    isHelpIdent "bogus" = false ∧ resolvedFor "bogus" = none ∧
    mainEarly "bogus" true =
      { reportsDirCreated := true, exitCode := some 1,
        consoleLines :=
          (if true then [] else [headerText]) ++ [unknownToolText "bogus", helpHintText],
        plannedTools := [] } :=
  ⟨by decide, by decide, unknown_ident_rejected "bogus" true (by decide) (by decide)⟩

/-! ## Claim C6: fix-mode full-pipeline phase ordering -/

/-- One subprocess invocation as `runTool` performs it: the tool name, whether
the fix command was selected (`options.fix && tool.fixArgs`), and the argument
list actually passed to the child process. -/
structure Invocation where
  tool : String
  usedFix : Bool
  argsUsed : List String
deriving DecidableEq

/-- Builds the invocation `runTool(name, options)` would perform for a
registered tool (`const args = options.fix && tool.fixArgs ? tool.fixArgs :
tool.args`).  Unregistered names produce an empty invocation; `runTool`
rejects them before spawning. -/
def mkInvocation (n : String) (fix : Bool) : Invocation :=
  match List.lookup n tools with
  | some t =>
    { tool := n
      usedFix := fix && t.fixArgs.isSome
      argsUsed := if fix && t.fixArgs.isSome then t.fixArgs.getD [] else t.args }
  | none => { tool := n, usedFix := false, argsUsed := [] }

/-- `runToolsSequential(names, options)` as a batch plan: each invocation is
awaited before the next starts, so every batch is a singleton. -/
def sequentialBatches (names : List String) (fix : Bool) : List (List Invocation) :=
  names.map fun n => [mkInvocation n fix]

/-- The execution plan of `main` for `--fix` with tool `"all"` (a batch is a
set of concurrently outstanding invocations; this branch never calls
`runToolsParallel`, so every batch is sequential):
step 1 runs the formatting group with the global fix flag; step 2 runs
`eslint` with `fix: true` and then `type-check` with `fix: false`; step 3 runs
the security and analysis groups with `fix: false`. -/
def fixAllPlan : List (List Invocation) :=
  sequentialBatches ((List.lookup "formatting" toolGroups).getD []) true ++
  sequentialBatches ["eslint"] true ++
  [[mkInvocation "type-check" false]] ++
  sequentialBatches ((List.lookup "security" toolGroups).getD []) false ++
  sequentialBatches ((List.lookup "analysis" toolGroups).getD []) false

/-- The diagnostic-only categories the claim says must never be fixed. -/
def diagnosticCategories : List String :=
  ["security-scanning", "vulnerability-checking", "dead-code", "duplication",
   "complexity", "maintainability", "dependency-check"]

/-- The registry category of a tool name. -/
def toolCategory (n : String) : String :=
  ((List.lookup n tools).map Tool.category).getD ""

/-- C6.  In the fix-mode full pipeline every batch holds exactly one
invocation (fully sequential, so in particular no two formatting-category fix
invocations overlap), the type checker runs in check-only mode with its plain
check arguments, and no tool of the security / dead-code / duplication /
complexity / maintainability / dependency categories uses its fix command. -/
theorem fixAll_sequential_and_checkonly :
    (fixAllPlan.all fun b => b.length == 1) = true ∧
    (fixAllPlan.all fun b => b.all fun inv =>
        inv.tool != "type-check" ||
          (!inv.usedFix && inv.argsUsed == ["tsc", "--noEmit"])) = true ∧
    (fixAllPlan.all fun b => b.all fun inv =>
        !(diagnosticCategories.contains (toolCategory inv.tool)) || !inv.usedFix) = true := by
  decide

/-! ## Claim C7: tools without a fix command under `--fix` -/

/-- The console events `runTool` can emit, one constructor per `printMessage`
call site.  The `noFixAvailable` constructor is modelled from the spec: it is
the informational message the specification expects for a tool without a fix
command; `runTool` in the source has no such call site. -/
inductive ToolLog where
  | unknownTool (name : String)
  | notInstalled (description : String)
  | installHint (command : String)
  | started (description : String)
  | commandEcho (command : String) (args : List String)
  | passed (description : String)
  | failed (description : String)
  | quietOutput
  | noFixAvailable (description : String)
deriving DecidableEq

/-- Is this event the "no fix available" informational message? -/
def isNoFixLog : ToolLog → Bool
  | .noFixAvailable _ => true
  | _ => false

/-- The observable outcome of one `runTool(name, options)` call: the spawned
child processes (command and argument list), the boolean result, and the
console events, given the environment facts (whether the availability probe
succeeds, and the child's exit code). -/
structure ToolRunOutcome where
  spawned : List (String × List String)
  success : Bool
  logs : List ToolLog
deriving DecidableEq

/-- Shallow embedding of `runTool` with the default source directory (the
`src/` placeholder substitution is then the identity): unknown tools log and
fail without spawning; unavailable tools log "TOOL NOT INSTALLED" plus the
install hint and fail without spawning the check; otherwise the fix arguments
are used exactly when `options.fix` holds and the tool has them, the child is
spawned once, and success is exit code 0 (with the pass/fail logs of the
`close` handler, output echoed in quiet mode on failure). -/
def runTool (n : String) (fix quiet verbose : Bool)
    (available : Bool) (exitCode : ℕ) : ToolRunOutcome :=
  match List.lookup n tools with
  | none => { spawned := [], success := false, logs := [.unknownTool n] }
  | some t =>
    if available = false then
      { spawned := [], success := false,
        logs := [.notInstalled t.description, .installHint t.command] }
    else
      let useFix := fix && t.fixArgs.isSome
      let args := if useFix then t.fixArgs.getD [] else t.args
      let headLogs : List ToolLog :=
        if quiet then []
        else .started t.description ::
          (if verbose then [.commandEcho t.command args] else [])
      let tailLogs : List ToolLog :=
        if exitCode == 0 then (if quiet then [] else [.passed t.description])
        else (if quiet then [.quietOutput] else [.failed t.description])
      { spawned := [(t.command, args)], success := exitCode == 0,
        logs := headLogs ++ tailLogs }

/-- C7 (counterexample).  Invoking `type-check` (which has no fix command)
with the fix option runs its check command exactly once and succeeds, but no
"no fix available" message is logged anywhere — the claim's expected report
does not exist. -/
theorem no_fix_tool_message_example :
    (runTool "type-check" true false false true 0).spawned =
      [("npx", ["tsc", "--noEmit"])] ∧
    (runTool "type-check" true false false true 0).success = true ∧
    ((runTool "type-check" true false false true 0).logs.all
      fun m => !(isNoFixLog m)) = true := by
  decide

/-- C7 (amended).  A registered tool without a fix command, invoked with the
fix option while available, executes its check command exactly once (it is not
skipped and not errored), its result depends only on the exit code (it is not
marked failed for lacking a fix command), and the engine logs its ordinary
status messages but no "no fix available" message. -/
theorem no_fix_tool_runs_check (n : String) (t : Tool)
    (fix quiet verbose : Bool) (exitCode : ℕ)
    (hl : List.lookup n tools = some t) (hf : t.fixArgs = none) :
    (runTool n fix quiet verbose true exitCode).spawned = [(t.command, t.args)] ∧
    (runTool n fix quiet verbose true exitCode).success = (exitCode == 0) ∧
    ((runTool n fix quiet verbose true exitCode).logs.all
      fun m => !(isNoFixLog m)) = true := by
  unfold runTool
  rw [hl]
  simp only [hf, Option.isSome_none, Bool.and_false, if_false, reduceCtorEq]
  refine ⟨by simp, by simp, ?_⟩
  by_cases hq : quiet = true <;> by_cases hv : verbose = true <;>
    by_cases he : (exitCode == 0) = true <;>
      simp [hq, hv, he, isNoFixLog]

/-- C7 (witness): the amended theorem applied at the `type-check` descriptor
with the fix option set and a failing exit code. -/
theorem no_fix_tool_runs_check_witness :
    List.lookup "type-check" tools = some typeCheckTool ∧
    typeCheckTool.fixArgs = none ∧
    ((runTool "type-check" true false true true 2).spawned =
        [(typeCheckTool.command, typeCheckTool.args)] ∧
      (runTool "type-check" true false true true 2).success = (2 == 0) ∧
      ((runTool "type-check" true false true true 2).logs.all
        fun m => !(isNoFixLog m)) = true) :=
  ⟨by decide, by decide,
    no_fix_tool_runs_check "type-check" typeCheckTool true false true 2
      (by decide) (by decide)⟩

/-! ## Claim C3: scorer behavior on zero eligible files -/

/-- The five-level grade of `getGrade`. -/
inductive Grade where
  | excellent
  | good
  | acceptable
  | needsImprovement
  | requiresRefactoring
deriving DecidableEq

/-- `getGrade(score)` with the default thresholds (emoji and color fields
omitted). -/
def getGrade (score : ℚ) : Grade :=
  if config.thresholds.excellent ≤ score then .excellent
  else if config.thresholds.good ≤ score then .good
  else if config.thresholds.acceptable ≤ score then .acceptable
  else if config.thresholds.needsImprovement ≤ score then .needsImprovement
  else .requiresRefactoring

/-- One recommendation triple of `generateRecommendations`. -/
structure Recommendation where
  kind : String
  message : String
  action : String
deriving DecidableEq

/-- `generateRecommendations(results, overallScore)`: the five rule-based
entries, each emitted only when its counter is positive, in source order. -/
def generateRecommendations (results : List FileMetric) (overallScore : ℚ) :
    List Recommendation :=
  (if overallScore < config.thresholds.acceptable then
    [{ kind := "critical",
       message := "Overall maintainability score is below acceptable threshold",
       action := "Consider major refactoring to improve code structure and reduce complexity" }]
  else []) ++
  (let complexFiles :=
    results.filter fun r => config.complexity.maxCyclomatic < r.complexity
  if 0 < complexFiles.length then
    [{ kind := "warning",
       message := toString complexFiles.length ++ " files have high cyclomatic complexity",
       action := "Break down complex functions into smaller, focused functions" }]
  else []) ++
  (let largeFiles := results.filter fun r => config.complexity.maxLines < r.lines
  if 0 < largeFiles.length then
    [{ kind := "warning",
       message := toString largeFiles.length ++ " files exceed recommended line count",
       action := "Split large files into smaller modules with single responsibilities" }]
  else []) ++
  (let complexFunctions :=
    results.flatMap fun r =>
      r.functions.filter fun f => config.complexity.maxCyclomatic < f.complexity
  if 0 < complexFunctions.length then
    [{ kind := "info",
       message := toString complexFunctions.length ++ " functions have high complexity",
       action := "Refactor complex functions using composition and early returns" }]
  else []) ++
  (let longFunctions :=
    results.flatMap fun r => r.functions.filter fun f => (50 : ℚ) < f.lines
  if 0 < longFunctions.length then
    [{ kind := "info",
       message := toString longFunctions.length ++ " functions are longer than 50 lines",
       action := "Extract common patterns and break down long functions" }]
  else [])

/-- The `summary` block of `generateReport` (averages divide by the result
count; `generateReport` is only reached on a non-empty list). -/
structure ReportSummary where
  totalFiles : ℕ
  errorFiles : ℕ
  averageComplexity : ℚ
  averageMaintainability : ℚ
  totalLines : ℚ
  complexFiles : ℕ
  largeFiles : ℕ
deriving DecidableEq

/-- `generateReport(results, overallScore)` (project name, source dir and
timestamp omitted: they are labels only). -/
structure MaintainabilityReport where
  overallScore : ℚ
  grade : Grade
  summary : ReportSummary
  files : List FileMetric
  recommendations : List Recommendation
deriving DecidableEq

/-- The report constructor of `generateReport`. -/
def generateReport (results : List FileMetric) (overallScore : ℚ) :
    MaintainabilityReport :=
  { overallScore := overallScore
    grade := getGrade overallScore
    summary :=
      { totalFiles := results.length
        errorFiles := (results.filter fun r => r.error).length
        averageComplexity :=
          (results.map FileMetric.complexity).sum / (results.length : ℚ)
        averageMaintainability :=
          (results.map FileMetric.maintainability).sum / (results.length : ℚ)
        totalLines := (results.map FileMetric.lines).sum
        complexFiles :=
          (results.filter fun r => config.complexity.maxCyclomatic < r.complexity).length
        largeFiles :=
          (results.filter fun r => config.complexity.maxLines < r.lines).length }
    files := results
    recommendations := generateRecommendations results overallScore }

/-- How one run of the scorer's `main` ends (after the help check):
the analyzer module is missing (warn and return), no eligible files were
found (warn and return), or analysis completed with a report and the final
exit code. -/
inductive ScorerOutcome where
  | analyzerMissing
  | noFilesFound (warning : String)
  | completed (report : MaintainabilityReport) (exitCode : ℕ)
deriving DecidableEq

/-- The report carried by an outcome, when one was produced. -/
def ScorerOutcome.reportOf : ScorerOutcome → Option MaintainabilityReport
  | .completed r _ => some r
  | _ => none

/-- The scorer's `main` after argument parsing, at the default threshold:
`validateToolAvailability` failing returns early; an empty file list prints
the "No files found to analyze" warning and returns early (producing no
report); otherwise the score, report and exit code are computed.  The
analysis results stand in for the file list: `analyzeFiles` yields exactly one
`FileMetric` per discovered file, so zero eligible files is the empty list. -/
def scorerMain (analyzerAvailable : Bool) (results : List FileMetric) :
    ScorerOutcome :=
  if analyzerAvailable = false then .analyzerMissing
  else if results.length = 0 then .noFilesFound "No files found to analyze"
  else
    let overallScore := calculateMaintainabilityScore results
    .completed (generateReport results overallScore)
      (if config.thresholds.acceptable ≤ overallScore then 0 else 1)

/-- C3 (counterexample).  With zero eligible files the scorer returns early:
no `MaintainabilityReport` exists at all, so in particular no report with
score 0 and a "no files analyzed" recommendation is produced. -/
theorem scorer_zero_files_produces_no_report :
    (scorerMain true []).reportOf = none := by
  rfl

/-- C3 (amended).  Zero eligible files make the scorer print the
"No files found to analyze" warning and return without a report (the process
then exits normally); the aggregation itself is division-safe,
`calculateMaintainabilityScore([]) = 0`, but no score-0 report and no
"no files analyzed" recommendation entry is generated. -/
theorem scorer_zero_files_early_return :
    scorerMain true [] = .noFilesFound "No files found to analyze" ∧
    calculateMaintainabilityScore [] = 0 := by
  constructor
  · rfl
  · rfl

end QualitySuite
